import Mathlib

/-!
Shallow embedding of the cache and batch-processing subsystem of
osp_marketing_tools (files cache.py and batch.py), together with theorems
settling the stated properties of that subsystem.

Conventions of the embedding:
* Python wall-clock timestamps are explicit integer inputs to each operation
  (the code reads time.time at those points); measured durations in
  milliseconds are explicit rational inputs.
* Python dicts returned to callers are structures; a key that is present in
  only some return paths becomes an Option field, with none meaning the key
  is absent.
* Python OrderedDict is an association list, oldest entry first, most
  recently inserted or accessed entry last, with pairwise distinct keys.
* Fallible Python code (raise) is embedded with Except.
-/

namespace OSP

/-! ## CacheEntry (cache.py) -/

/-- Embeds the dataclass CacheEntry of cache.py.  The Python value field has
type Any; it is embedded at String, on which the Python serialization
str(value) is the identity. -/
structure CacheEntry where
  key : String
  value : String
  created_at : Int
  accessed_at : Int
  access_count : Nat
  size_bytes : Nat
  tags : List String
deriving DecidableEq

/-- Embeds CacheEntry.__post_init__: a size_bytes of 0 is replaced by the
byte length of the UTF-8 encoding of str(value). -/
def CacheEntry.postInit (e : CacheEntry) : CacheEntry :=
  if e.size_bytes = 0 then { e with size_bytes := e.value.utf8ByteSize } else e

/-- Dataclass construction with the default field values access_count = 0 and
size_bytes = 0, followed by __post_init__; a tags argument of none is the
Python default tags=None, which __post_init__ replaces by the empty list. -/
def CacheEntry.make (key value : String) (created_at accessed_at : Int)
    (tags : Option (List String)) : CacheEntry :=
  CacheEntry.postInit
    { key := key, value := value, created_at := created_at,
      accessed_at := accessed_at, access_count := 0, size_bytes := 0,
      tags := tags.getD [] }

/-- Embeds CacheEntry.is_expired: time.time() - created_at > ttl_seconds,
with the current wall clock passed explicitly. -/
def CacheEntry.is_expired (e : CacheEntry) (ttl_seconds now : Int) : Bool :=
  now - e.created_at > ttl_seconds

/-- Embeds CacheEntry.touch: update accessed_at and increment access_count. -/
def CacheEntry.touch (e : CacheEntry) (now : Int) : CacheEntry :=
  { e with accessed_at := now, access_count := e.access_count + 1 }

/-! ## AdvancedLRUCache (cache.py) -/

/-- The _stats dictionary of AdvancedLRUCache. -/
structure CacheStats where
  hits : Nat
  misses : Nat
  evictions : Nat
  expired_removals : Nat
  total_size_bytes : Nat
  avg_access_time_ms : ℚ
deriving DecidableEq

/-- State of an AdvancedLRUCache: capacity, TTL, the OrderedDict of entries
(oldest first), and the statistics record.  Persistence is disabled (the
enable_persistence = False configuration); the lock serializes operations, so
each operation is a pure state transition. -/
structure AdvancedLRUCache where
  max_size : Nat
  ttl_seconds : Int
  cache : List (String × CacheEntry)
  stats : CacheStats
deriving DecidableEq

/-- Key lookup in the OrderedDict. -/
def entriesLookup (l : List (String × CacheEntry)) (k : String) :
    Option CacheEntry :=
  (l.find? (fun p => p.1 == k)).map (fun p => p.2)

/-- Key deletion in the OrderedDict (del self.cache[k]); removes the binding
of k, keeping order of the rest. -/
def entriesErase (l : List (String × CacheEntry)) (k : String) :
    List (String × CacheEntry) :=
  l.filter (fun p => !(p.1 == k))

/-- Sum of entry sizes, as computed by _update_total_size. -/
def sumSizes (l : List (String × CacheEntry)) : Nat :=
  (l.map (fun p => p.2.size_bytes)).sum

/-- A freshly constructed AdvancedLRUCache (persistence disabled): empty
OrderedDict and all statistics zero. -/
def AdvancedLRUCache.init (max_size : Nat) (ttl_seconds : Int) :
    AdvancedLRUCache :=
  { max_size := max_size, ttl_seconds := ttl_seconds, cache := [],
    stats := { hits := 0, misses := 0, evictions := 0, expired_removals := 0,
               total_size_bytes := 0, avg_access_time_ms := 0 } }

/-- Embeds AdvancedLRUCache.get.  now is the wall clock read inside the call;
access_time_ms is the measured elapsed duration (time.time() - start_time)
times 1000, an input of the environment.  Returns the Python return value
paired with the successor state.  On a key miss only the miss counter moves;
on an expired entry the entry is deleted, miss and expired_removals both
count, and total size is recomputed; on a live hit the entry is touched and
moved to the end, the hit counter moves, and the running average access time
is updated with denominator hits + misses. -/
def AdvancedLRUCache.get (c : AdvancedLRUCache) (key : String) (now : Int)
    (access_time_ms : ℚ) : Option String × AdvancedLRUCache :=
  match entriesLookup c.cache key with
  | none =>
      (none, { c with stats := { c.stats with misses := c.stats.misses + 1 } })
  | some entry =>
      if entry.is_expired c.ttl_seconds now then
        let cache' := entriesErase c.cache key
        (none,
         { c with cache := cache',
                  stats := { c.stats with
                             misses := c.stats.misses + 1,
                             expired_removals := c.stats.expired_removals + 1,
                             total_size_bytes := sumSizes cache' } })
      else
        let entry' := entry.touch now
        let cache' := entriesErase c.cache key ++ [(key, entry')]
        let hits' := c.stats.hits + 1
        let total_accesses : ℚ := ((hits' + c.stats.misses : Nat) : ℚ)
        let avg' := (c.stats.avg_access_time_ms * (total_accesses - 1)
                      + access_time_ms) / total_accesses
        (some entry'.value,
         { c with cache := cache',
                  stats := { c.stats with
                             hits := hits',
                             avg_access_time_ms := avg' } })

/-- Embeds the eviction loop of put: while len(cache) > max_size, delete the
first (oldest) entry and count one eviction.  Returns the remaining list and
the number of evicted entries. -/
def evictLoop : List (String × CacheEntry) → Nat → List (String × CacheEntry) × Nat
  | [], _ => ([], 0)
  | p :: rest, max_size =>
      if (p :: rest).length > max_size then
        let r := evictLoop rest max_size
        (r.1, r.2 + 1)
      else (p :: rest, 0)

/-- The OrderedDict state of put after deleting any existing binding of the
key and appending the freshly constructed entry at the most-recent end,
before the eviction loop runs. -/
def putInserted (c : AdvancedLRUCache) (key value : String)
    (tags : Option (List String)) (now : Int) : List (String × CacheEntry) :=
  entriesErase c.cache key ++ [(key, CacheEntry.make key value now now (some (tags.getD [])))]

/-- Embeds AdvancedLRUCache.put (persistence disabled): delete an existing
binding, insert the new entry at the most-recent end (assignment followed by
move_to_end), run the eviction loop, count evictions, and recompute total
size.  The Python argument default tags=None reaches CacheEntry as
tags or [], embedded as tags.getD []. -/
def AdvancedLRUCache.put (c : AdvancedLRUCache) (key value : String)
    (tags : Option (List String)) (now : Int) : AdvancedLRUCache :=
  let cache1 := putInserted c key value tags now
  let ev := evictLoop cache1 c.max_size
  { c with cache := ev.1,
           stats := { c.stats with
                      evictions := c.stats.evictions + ev.2,
                      total_size_bytes := sumSizes ev.1 } }

/-- Embeds AdvancedLRUCache.clear: self.cache.clear() runs first, then the
evictions counter is increased by len(self.cache) of the already-emptied
dict, then total size is recomputed. -/
def AdvancedLRUCache.clear (c : AdvancedLRUCache) : AdvancedLRUCache :=
  let cache' : List (String × CacheEntry) := []
  { c with cache := cache',
           stats := { c.stats with
                      evictions := c.stats.evictions + cache'.length,
                      total_size_bytes := sumSizes cache' } }

/-! ## Batch processing (batch.py) -/

/-- Embeds the dataclass BatchItem.  metadata is an opaque mapping, embedded
as an association list of strings. -/
structure BatchItem where
  id : String
  content : String
  frameworks : Option (List String)
  metadata : List (String × String) := []
  priority : Int := 0
deriving DecidableEq

/-- Embeds the dataclass BatchResult; the data payload type is the opaque
result type of the scoring capability. -/
structure BatchResult (α : Type) where
  item_id : String
  success : Bool
  data : Option α := none
  error : Option String := none
  processing_time_ms : ℚ := 0
  framework_count : Nat := 0
deriving DecidableEq

/-- The default framework list of _process_item. -/
def defaultFrameworks : List String := ["IDEAL", "STEPPS", "E-E-A-T", "GDocP"]

/-- Embeds frameworks = item.frameworks or [default...]: a missing frameworks
field (Python None) and an empty list both fall back to the default list. -/
def frameworksOrDefault (it : BatchItem) : List String :=
  match it.frameworks with
  | none => defaultFrameworks
  | some fs => if fs = [] then defaultFrameworks else fs

/-- Embeds Python round(x, 2) on exact rationals: round half away from zero
is approximated by Mathlib round (half up); no theorem in this file evaluates
it at a tie, so the tie-breaking direction is immaterial here. -/
def round2 (x : ℚ) : ℚ := ((round (x * 100) : ℤ) : ℚ) / 100

/-- Embeds the test not content.strip(): stripping leading and trailing
whitespace leaves the empty string exactly when every character of the
string is whitespace. -/
def stripIsEmpty (s : String) : Bool := s.data.all Char.isWhitespace

/-- Embeds _process_item for one BatchItem.  The scoring capability
analyze_content_with_frameworks is an external collaborator, embedded as an
explicit function argument returning Except (error = the raised exception's
message); elapsed_ms is the measured wall time of the call, an input of the
environment.  Empty or whitespace-only content fails fast with
processing_time_ms = 0 and no capability call; a capability exception is
caught and becomes a failed BatchResult carrying the exception message. -/
def processItem (analyze : String → List String → Except String α)
    (it : BatchItem) (elapsed_ms : ℚ) : BatchResult α :=
  let frameworks := frameworksOrDefault it
  if it.content == "" || stripIsEmpty it.content then
    { item_id := it.id, success := false,
      error := some "Empty or invalid content", processing_time_ms := 0 }
  else
    match analyze it.content frameworks with
    | Except.ok d =>
        { item_id := it.id, success := true, data := some d,
          processing_time_ms := elapsed_ms,
          framework_count := frameworks.length }
    | Except.error e =>
        { item_id := it.id, success := false, error := some e,
          processing_time_ms := elapsed_ms }

/-- Embeds the summary dictionary built by _create_summary.  The throughput
key is absent from the empty-results branch of the source, hence an Option
field. -/
structure BatchSummary where
  total_items : Nat
  successful_items : Nat
  failed_items : Nat
  success_rate : ℚ
  total_processing_time_seconds : ℚ
  average_processing_time_ms : ℚ
  total_frameworks_processed : Nat
  throughput_items_per_second : Option ℚ := none
deriving DecidableEq

/-- Embeds _create_summary. -/
def createSummary (results : List (BatchResult α)) (total_time_seconds : ℚ) :
    BatchSummary :=
  if results.isEmpty then
    { total_items := 0, successful_items := 0, failed_items := 0,
      success_rate := 0, total_processing_time_seconds := total_time_seconds,
      average_processing_time_ms := 0, total_frameworks_processed := 0,
      throughput_items_per_second := none }
  else
    let successful_results := results.filter (fun r => r.success)
    let failed_results := results.filter (fun r => !r.success)
    let total_items := results.length
    let successful_items := successful_results.length
    let failed_items := failed_results.length
    let success_rate : ℚ :=
      if total_items > 0 then (successful_items : ℚ) / (total_items : ℚ) * 100 else 0
    let processing_times :=
      (results.map (fun r => r.processing_time_ms)).filter (fun t => decide (t > 0))
    let avg_processing_time : ℚ :=
      if processing_times.isEmpty then 0
      else processing_times.sum / (processing_times.length : ℚ)
    let total_frameworks := (successful_results.map (fun r => r.framework_count)).sum
    { total_items := total_items, successful_items := successful_items,
      failed_items := failed_items,
      success_rate := round2 success_rate,
      total_processing_time_seconds := round2 total_time_seconds,
      average_processing_time_ms := round2 avg_processing_time,
      total_frameworks_processed := total_frameworks,
      throughput_items_per_second :=
        some (if total_time_seconds > 0
              then round2 ((total_items : ℚ) / total_time_seconds) else 0) }

/-- The progress dictionary of the return value of process_batch. -/
structure ProgressReport where
  total_items : Nat
  completed_items : Nat
  failed_items : Nat
  processing_time_seconds : ℚ
deriving DecidableEq

/-- The dictionary returned by process_batch.  The progress key and the error
key are present in only some return paths of the source, hence Option
fields with none meaning the key is absent. -/
structure ProcessBatchReturn (α : Type) where
  success : Bool
  results : List (BatchResult α)
  summary : BatchSummary
  progress : Option ProgressReport := none
  error : Option String := none
deriving DecidableEq

/-- Embeds _process_parallel in the run where no task is cancelled and all
tasks finish before the timeout: every created task completes and each one is
the _process_item call on its item.  The iteration over the completed-task
set is embedded in task-creation order; the source fixes no order, and no
theorem below depends on the order, only on membership.  tfn gives the
measured wall time of each item's processing. -/
def processParallel (analyze : String → List String → Except String α)
    (tfn : BatchItem → ℚ) (items : List BatchItem) : List (BatchResult α) :=
  items.map (fun it => processItem analyze it (tfn it))

/-- Embeds the pending-task branch of _process_parallel after a timeout
(the block appending one failed BatchResult per unfinished task): each
pending item contributes a BatchResult with the literal string "timeout" as
item_id and "Processing timeout" as error, appended after the results already
collected from completed tasks. -/
def appendTimeoutFailures (doneResults : List (BatchResult α))
    (pending : List BatchItem) : List (BatchResult α) :=
  doneResults ++ pending.map (fun _ =>
    { item_id := "timeout", success := false,
      error := some "Processing timeout" })

/-- Embeds process_batch (the no-timeout, no-cancellation run): batch-size
validation raises (Except.error); empty input returns immediately with an
empty summary and no progress key; otherwise the items are stably sorted by
descending priority, processed, and wrapped with a summary and a progress
dictionary.  elapsed_seconds is the measured wall time of the whole batch. -/
def process_batch (max_batch_size : Nat)
    (analyze : String → List String → Except String α) (tfn : BatchItem → ℚ)
    (items : List BatchItem) (elapsed_seconds : ℚ) :
    Except String (ProcessBatchReturn α) :=
  if items.length > max_batch_size then
    Except.error "Batch size exceeds maximum allowed"
  else if items = [] then
    Except.ok { success := true, results := [],
                summary := createSummary ([] : List (BatchResult α)) 0 }
  else
    let sorted_items := items.mergeSort (fun x y => y.priority ≤ x.priority)
    let results := processParallel analyze tfn sorted_items
    Except.ok
      { success := true, results := results,
        summary := createSummary results elapsed_seconds,
        progress := some
          { total_items := items.length,
            completed_items := (results.filter (fun r => r.success)).length,
            failed_items := (results.filter (fun r => !r.success)).length,
            processing_time_seconds := elapsed_seconds } }

/-- Embeds the Python slice expression history[-limit:] for a natural limit:
the index -0 is 0, so limit = 0 yields the whole list; a positive limit
clamps at the start and keeps the last min(limit, length) elements. -/
def pySliceFromNeg (l : List α) (limit : Nat) : List α :=
  if limit = 0 then l else l.drop (l.length - limit)

/-- Embeds BatchAnalysisManager.get_batch_history:
batch_history[-limit:] if batch_history else []. -/
def get_batch_history (batch_history : List α) (limit : Nat) : List α :=
  if batch_history.isEmpty then [] else pySliceFromNeg batch_history limit

/-! ## Helper lemmas -/

/-- Erasing a key removes every binding of that key. -/
theorem entriesLookup_entriesErase_self (l : List (String × CacheEntry))
    (k : String) : entriesLookup (entriesErase l k) k = none := by
  unfold entriesLookup entriesErase
  rw [Option.map_eq_none', List.find?_eq_none]
  intro p hp
  rcases List.mem_filter.mp hp with ⟨-, h⟩
  simpa using h

/-- The eviction loop drops entries from the front until the capacity is
reached, counting one eviction per dropped entry. -/
theorem evictLoop_eq (l : List (String × CacheEntry)) (m : Nat) :
    evictLoop l m = (l.drop (l.length - m), l.length - m) := by
  induction l with
  | nil => simp [evictLoop]
  | cons p rest ih =>
      simp only [evictLoop, ih]
      by_cases h : (p :: rest).length > m
      · rw [if_pos h]
        have hlen : (p :: rest).length - m = (rest.length - m) + 1 := by
          simp only [List.length_cons] at h ⊢
          omega
        rw [hlen, List.drop_succ_cons]
      · rw [if_neg h]
        have h0 : (p :: rest).length - m = 0 := by
          simp only [List.length_cons] at h ⊢
          omega
        rw [h0, List.drop_zero]

/-- Unfolding lemma: lookup on an empty OrderedDict. -/
theorem entriesLookup_nil (k : String) : entriesLookup [] k = none := rfl

/-- Unfolding lemma: lookup on a nonempty OrderedDict. -/
theorem entriesLookup_cons (p : String × CacheEntry)
    (l : List (String × CacheEntry)) (k : String) :
    entriesLookup (p :: l) k =
      if p.1 == k then some p.2 else entriesLookup l k := by
  unfold entriesLookup
  cases hpk : (p.1 == k) <;> simp [List.find?_cons, hpk]

/-- Unfolding lemma: erasing from an empty OrderedDict. -/
theorem entriesErase_nil (k : String) : entriesErase [] k = [] := rfl

/-- Unfolding lemma: erasing from a nonempty OrderedDict. -/
theorem entriesErase_cons (p : String × CacheEntry)
    (l : List (String × CacheEntry)) (k : String) :
    entriesErase (p :: l) k =
      if p.1 == k then entriesErase l k else p :: entriesErase l k := by
  unfold entriesErase
  cases hpk : (p.1 == k) <;> simp [List.filter_cons, hpk]

/-! ## Claim theorems: cache -/

/-- Claim C10: clear empties the entry map and resets total_size_bytes to 0,
while leaving the cumulative counters hits, misses, evictions and
expired_removals unchanged; in particular the evictions counter is not
increased for the discarded entries, because the increment uses the length of
the already-emptied map. -/
theorem clear_resets_contents_not_counters (c : AdvancedLRUCache) :
    (c.clear).cache = [] ∧ (c.clear).stats.total_size_bytes = 0 ∧
    (c.clear).stats.hits = c.stats.hits ∧
    (c.clear).stats.misses = c.stats.misses ∧
    (c.clear).stats.evictions = c.stats.evictions ∧
    (c.clear).stats.expired_removals = c.stats.expired_removals := by
  simp [AdvancedLRUCache.clear, sumSizes]

/-- Claim C7, counterexample: the CacheEntry constructed from the empty
string has size_bytes = 0 (str of the empty string encodes to zero bytes),
refuting size_bytes > 0 after construction. -/
theorem size_bytes_empty_string_zero :
    ¬ (0 < (CacheEntry.make "k" "" 0 0 none).size_bytes) := by decide

/-- Claim C7 (amended): after construction size_bytes equals the UTF-8 byte
length of the value's string form, so it is strictly positive for every value
whose string form is nonempty; for the empty string it remains 0. -/
theorem size_bytes_pos_of_value_ne_empty (key value : String) (ca aa : Int)
    (tags : Option (List String)) (h : value ≠ "") :
    0 < (CacheEntry.make key value ca aa tags).size_bytes := by
  cases value with
  | mk data =>
      cases data with
      | nil => exact absurd (by decide) h
      | cons ch cs =>
          have hpos := Char.utf8Size_pos ch
          simp [CacheEntry.make, CacheEntry.postInit, String.utf8ByteSize_mk,
                String.utf8Len_cons]
          omega

/-- Witness for the amended claim C7 at the concrete value "x". -/
theorem size_bytes_pos_witness :
    ("x" : String) ≠ "" ∧ 0 < (CacheEntry.make "k" "x" 0 0 none).size_bytes :=
  ⟨by decide, size_bytes_pos_of_value_ne_empty "k" "x" 0 0 none (by decide)⟩

/-- Spec-side definition for the comparison in claim C8, following the
spec's words: the incremental mean over all get calls of their measured
access times, i.e. the arithmetic mean of that list of times. -/
def specMeanOfAllGetTimes (times : List ℚ) : ℚ :=
  if times.isEmpty then 0 else times.sum / (times.length : ℚ)

/-- Claim C8, counterexample: one get on an empty cache (a miss) with
measured access time 5 ms leaves avg_access_time_ms at 0, while the
incremental mean over all get calls would be 5; the code never adds a miss's
measured time to the running average. -/
theorem avg_access_time_miss_not_counted :
    (((AdvancedLRUCache.init 10 100).get "x" 0 5).2).stats.avg_access_time_ms = 0 ∧
    specMeanOfAllGetTimes [5] = 5 ∧ (0 : ℚ) ≠ 5 := by
  refine ⟨rfl, by norm_num [specMeanOfAllGetTimes], by norm_num⟩

/-- The condition under which a get is a live (non-expired) hit. -/
def isLiveHit (c : AdvancedLRUCache) (key : String) (now : Int) : Bool :=
  match entriesLookup c.cache key with
  | none => false
  | some e => !(e.is_expired c.ttl_seconds now)

/-- Claim C8 (amended): avg_access_time_ms is updated only by a live hit, to
(old * (hits + misses - 1) + t) / (hits + misses) with the counters taken
after the hit is recorded; every miss, whether the key is absent or the entry
expired, leaves the average unchanged — misses enlarge the denominator of
later hit updates but never contribute their own measured time. -/
theorem get_avg_access_time_update (c : AdvancedLRUCache) (key : String)
    (now : Int) (t : ℚ) :
    ((c.get key now t).2).stats.avg_access_time_ms =
      if isLiveHit c key now then
        (c.stats.avg_access_time_ms
            * (((c.stats.hits + 1 + c.stats.misses : Nat) : ℚ) - 1) + t)
          / ((c.stats.hits + 1 + c.stats.misses : Nat) : ℚ)
      else c.stats.avg_access_time_ms := by
  unfold AdvancedLRUCache.get isLiveHit
  cases h : entriesLookup c.cache key with
  | none => simp
  | some e =>
      by_cases hexp : e.is_expired c.ttl_seconds now
      · simp [hexp]
      · simp [hexp]

/-! ## Claim theorems: batch -/

/-- Claim C6, counterexample: a single unfinished item with id "item1" is
recorded on timeout with the literal item_id "timeout", which differs from
the item's id, so that result does not correlate back to its originating
item. -/
theorem timeout_item_id_not_echoed :
    ((appendTimeoutFailures ([] : List (BatchResult Nat))
        [{ id := "item1", content := "c", frameworks := none }]).map
      (fun r => r.item_id)) = ["timeout"] ∧ ("timeout" : String) ≠ "item1" := by
  refine ⟨rfl, by decide⟩

/-- Claim C6 (amended): on timeout, every unfinished item is recorded as a
failed BatchResult with error "Processing timeout", but with the placeholder
item_id "timeout" rather than the originating item's id; the results of
already-completed items are retained as the initial segment of the returned
list. -/
theorem timeout_failures_shape (doneResults : List (BatchResult α))
    (pending : List BatchItem) :
    (appendTimeoutFailures doneResults pending).length
        = doneResults.length + pending.length ∧
    (appendTimeoutFailures doneResults pending).take doneResults.length
        = doneResults ∧
    ∀ r ∈ (appendTimeoutFailures doneResults pending).drop doneResults.length,
      r.success = false ∧ r.error = some "Processing timeout" ∧
      r.item_id = "timeout" := by
  refine ⟨by simp [appendTimeoutFailures], ?_, ?_⟩
  · rw [appendTimeoutFailures]
    exact List.take_left doneResults
      (pending.map (fun _ =>
        ({ item_id := "timeout", success := false,
           error := some "Processing timeout" } : BatchResult α)))
  · intro r hr
    rw [appendTimeoutFailures, List.drop_left] at hr
    rcases List.mem_map.mp hr with ⟨it, -, rfl⟩
    exact ⟨rfl, rfl, rfl⟩

/-- Witness for the amended claim C6 at a concrete completed result and a
concrete pending item. -/
theorem timeout_failures_shape_witness :
    (appendTimeoutFailures
        [({ item_id := "i1", success := true } : BatchResult Nat)]
        [{ id := "i2", content := "c", frameworks := none }]).length
        = [({ item_id := "i1", success := true } : BatchResult Nat)].length
          + [({ id := "i2", content := "c", frameworks := none } : BatchItem)].length ∧
    (appendTimeoutFailures
        [({ item_id := "i1", success := true } : BatchResult Nat)]
        [{ id := "i2", content := "c", frameworks := none }]).take
        [({ item_id := "i1", success := true } : BatchResult Nat)].length
        = [({ item_id := "i1", success := true } : BatchResult Nat)] ∧
    ∀ r ∈ (appendTimeoutFailures
        [({ item_id := "i1", success := true } : BatchResult Nat)]
        [{ id := "i2", content := "c", frameworks := none }]).drop
        [({ item_id := "i1", success := true } : BatchResult Nat)].length,
      r.success = false ∧ r.error = some "Processing timeout" ∧
      r.item_id = "timeout" :=
  timeout_failures_shape
    [({ item_id := "i1", success := true } : BatchResult Nat)]
    [{ id := "i2", content := "c", frameworks := none }]

/-- Claim C9, counterexample: with a one-entry history and limit 0 the
function returns the whole history, not the empty list the claim predicts
(min 0 1 = 0 entries); the Python slice index -0 is 0. -/
theorem get_batch_history_zero_whole :
    get_batch_history [(1 : Nat)] 0 = [1] ∧
    (get_batch_history [(1 : Nat)] 0).length ≠ min 0 [(1 : Nat)].length := by
  refine ⟨rfl, by decide⟩

/-- Claim C9 (amended): for every limit ≥ 1 the function returns exactly the
most recent min(limit, length) entries, newest last (the returned list is the
suffix of the history of that length); for limit = 0 it returns the entire
history, because the slice index -0 is 0. -/
theorem get_batch_history_suffix (history : List α) (limit : Nat) :
    (get_batch_history history limit).length =
      (if limit = 0 then history.length else min limit history.length) ∧
    get_batch_history history limit <:+ history := by
  unfold get_batch_history pySliceFromNeg
  by_cases hE : history.isEmpty
  · rw [List.isEmpty_iff] at hE
    subst hE
    constructor
    · simp
    · simp
  · simp only [hE, Bool.false_eq_true, if_false]
    by_cases hl : limit = 0
    · simp [hl]
    · simp only [hl, if_false]
      refine ⟨?_, List.drop_suffix _ _⟩
      rw [List.length_drop]
      omega

/-- Claim C1: after every put on a cache with positive max_size the number
of entries is at most max_size; the surviving entries are the inserted order
with exactly the excess dropped from the least-recently-used front, and the
eviction counter grows by exactly the number of dropped entries — one
increment per evicted entry.  The pre-state is arbitrary, so the bound holds
after each put of any sequence of puts. -/
theorem put_capacity_and_evictions (c : AdvancedLRUCache) (key value : String)
    (tags : Option (List String)) (now : Int) (hpos : 0 < c.max_size) :
    (c.put key value tags now).cache.length ≤ c.max_size ∧
    (c.put key value tags now).cache =
      (putInserted c key value tags now).drop
        ((putInserted c key value tags now).length - c.max_size) ∧
    (c.put key value tags now).stats.evictions =
      c.stats.evictions
        + ((putInserted c key value tags now).length - c.max_size) := by
  refine ⟨?_, ?_, ?_⟩
  · simp only [AdvancedLRUCache.put, evictLoop_eq, List.length_drop]
    omega
  · simp only [AdvancedLRUCache.put, evictLoop_eq]
  · simp only [AdvancedLRUCache.put, evictLoop_eq]

/-- Witness for claim C1: a put on a full cache of capacity 1 evicts exactly
the old least-recently-used entry and counts one eviction. -/
theorem put_capacity_and_evictions_witness :
    0 < ((AdvancedLRUCache.init 1 100).put "a" "va" none 0).max_size ∧
    ((((AdvancedLRUCache.init 1 100).put "a" "va" none 0).put "b" "vb" none 0).cache.length
      ≤ ((AdvancedLRUCache.init 1 100).put "a" "va" none 0).max_size ∧
    (((AdvancedLRUCache.init 1 100).put "a" "va" none 0).put "b" "vb" none 0).cache =
      (putInserted ((AdvancedLRUCache.init 1 100).put "a" "va" none 0) "b" "vb" none 0).drop
        ((putInserted ((AdvancedLRUCache.init 1 100).put "a" "va" none 0) "b" "vb" none 0).length
          - ((AdvancedLRUCache.init 1 100).put "a" "va" none 0).max_size) ∧
    (((AdvancedLRUCache.init 1 100).put "a" "va" none 0).put "b" "vb" none 0).stats.evictions =
      ((AdvancedLRUCache.init 1 100).put "a" "va" none 0).stats.evictions
        + ((putInserted ((AdvancedLRUCache.init 1 100).put "a" "va" none 0) "b" "vb" none 0).length
          - ((AdvancedLRUCache.init 1 100).put "a" "va" none 0).max_size)) :=
  ⟨by decide,
   put_capacity_and_evictions ((AdvancedLRUCache.init 1 100).put "a" "va" none 0)
     "b" "vb" none 0 (by decide)⟩

/-- Claim C2: with max_size 2, distinct keys, a nonnegative TTL and all
operations at a single instant (so no entry expires), put a; put b; get a;
put c leaves exactly the keys a and c present, in recency order a then c,
with b absent: the hit on a promoted it to most recent, so b was the
least-recently-used entry evicted by put c, counted as one eviction. -/
theorem lru_promote_then_evict (a b c va vb vc : String) (t ttl : Int)
    (hab : a ≠ b) (hac : a ≠ c) (hbc : b ≠ c) (httl : 0 ≤ ttl) :
    ((((((AdvancedLRUCache.init 2 ttl).put a va none t).put b vb none t).get
          a t 0).2).put c vc none t).cache.map Prod.fst = [a, c] ∧
    entriesLookup ((((((AdvancedLRUCache.init 2 ttl).put a va none t).put
          b vb none t).get a t 0).2).put c vc none t).cache b = none ∧
    ((((((AdvancedLRUCache.init 2 ttl).put a va none t).put b vb none t).get
          a t 0).2).put c vc none t).stats.evictions = 1 := by
  have hba : b ≠ a := Ne.symm hab
  have hca : c ≠ a := Ne.symm hac
  have hcb : c ≠ b := Ne.symm hbc
  have hexp : ¬ (ttl < (0 : Int)) := by omega
  simp [AdvancedLRUCache.init, AdvancedLRUCache.put, AdvancedLRUCache.get,
    putInserted, CacheEntry.make, CacheEntry.postInit, CacheEntry.is_expired,
    CacheEntry.touch, evictLoop, sumSizes, entriesLookup_nil,
    entriesLookup_cons, entriesErase_nil, entriesErase_cons,
    hab, hac, hbc, hba, hca, hcb, hexp]

/-- Witness for claim C2 at the concrete keys a, b, c with TTL 0 and all
operations at time 0. -/
theorem lru_promote_then_evict_witness :
    ("a" : String) ≠ "b" ∧ ("a" : String) ≠ "c" ∧ ("b" : String) ≠ "c" ∧
    (0 : Int) ≤ 0 ∧
    (((((((AdvancedLRUCache.init 2 0).put "a" "va" none 0).put "b" "vb" none
          0).get "a" 0 0).2).put "c" "vc" none 0).cache.map Prod.fst
        = ["a", "c"] ∧
    entriesLookup ((((((AdvancedLRUCache.init 2 0).put "a" "va" none 0).put
          "b" "vb" none 0).get "a" 0 0).2).put "c" "vc" none 0).cache "b"
        = none ∧
    (((((((AdvancedLRUCache.init 2 0).put "a" "va" none 0).put "b" "vb" none
          0).get "a" 0 0).2).put "c" "vc" none 0)).stats.evictions = 1) :=
  ⟨by decide, by decide, by decide, by decide,
   lru_promote_then_evict "a" "b" "c" "va" "vb" "vc" 0 0
     (by decide) (by decide) (by decide) (by decide)⟩

/-- Claim C3: a get on a present but expired entry removes the entry, counts
one miss and one expired removal, leaves the hit counter and the running
average untouched (in particular the entry is not touched: it is gone), and
returns absent. -/
theorem get_expired_removes_and_counts (c : AdvancedLRUCache) (key : String)
    (now : Int) (tms : ℚ) (e : CacheEntry)
    (hfound : entriesLookup c.cache key = some e)
    (hexp : e.is_expired c.ttl_seconds now = true) :
    (c.get key now tms).1 = none ∧
    ((c.get key now tms).2).stats.misses = c.stats.misses + 1 ∧
    ((c.get key now tms).2).stats.expired_removals
        = c.stats.expired_removals + 1 ∧
    ((c.get key now tms).2).stats.hits = c.stats.hits ∧
    ((c.get key now tms).2).stats.avg_access_time_ms
        = c.stats.avg_access_time_ms ∧
    entriesLookup ((c.get key now tms).2).cache key = none := by
  unfold AdvancedLRUCache.get
  rw [hfound]
  simp [hexp, entriesLookup_entriesErase_self]

/-- Witness for claim C3: an entry written at time 0 into a cache with TTL 10
and read at time 100 is expired, removed, and counted as miss plus expired
removal. -/
theorem get_expired_witness :
    entriesLookup ((AdvancedLRUCache.init 5 10).put "k" "v" none 0).cache "k"
        = some (CacheEntry.make "k" "v" 0 0 (some [])) ∧
    (CacheEntry.make "k" "v" 0 0 (some [])).is_expired
        ((AdvancedLRUCache.init 5 10).put "k" "v" none 0).ttl_seconds 100
        = true ∧
    ((((AdvancedLRUCache.init 5 10).put "k" "v" none 0).get "k" 100 3).1
        = none ∧
    ((((AdvancedLRUCache.init 5 10).put "k" "v" none 0).get "k" 100 3).2).stats.misses
        = ((AdvancedLRUCache.init 5 10).put "k" "v" none 0).stats.misses + 1 ∧
    ((((AdvancedLRUCache.init 5 10).put "k" "v" none 0).get "k" 100 3).2).stats.expired_removals
        = ((AdvancedLRUCache.init 5 10).put "k" "v" none 0).stats.expired_removals + 1 ∧
    ((((AdvancedLRUCache.init 5 10).put "k" "v" none 0).get "k" 100 3).2).stats.hits
        = ((AdvancedLRUCache.init 5 10).put "k" "v" none 0).stats.hits ∧
    ((((AdvancedLRUCache.init 5 10).put "k" "v" none 0).get "k" 100 3).2).stats.avg_access_time_ms
        = ((AdvancedLRUCache.init 5 10).put "k" "v" none 0).stats.avg_access_time_ms ∧
    entriesLookup ((((AdvancedLRUCache.init 5 10).put "k" "v" none 0).get
        "k" 100 3).2).cache "k" = none) :=
  ⟨by decide, by decide,
   get_expired_removes_and_counts ((AdvancedLRUCache.init 5 10).put "k" "v" none 0)
     "k" 100 3 (CacheEntry.make "k" "v" 0 0 (some [])) (by decide) (by decide)⟩

/-- Each processed item's result is a member of the parallel-processing
output. -/
theorem processParallel_mem (analyze : String → List String → Except String α)
    (tfn : BatchItem → ℚ) (items : List BatchItem) (it : BatchItem)
    (h : it ∈ items) :
    processItem analyze it (tfn it) ∈ processParallel analyze tfn items :=
  List.mem_map_of_mem _ h

/-- When the scoring capability raises, _process_item catches the exception
and returns a failed BatchResult carrying the exception message. -/
theorem processItem_error (analyze : String → List String → Except String α)
    (it : BatchItem) (ems : ℚ) (msg : String)
    (hcontent : stripIsEmpty it.content = false)
    (herr : analyze it.content (frameworksOrDefault it) = Except.error msg) :
    processItem analyze it ems =
      { item_id := it.id, success := false, error := some msg,
        processing_time_ms := ems } := by
  have hc0 : (it.content == "") = false := by
    cases hb : (it.content == "") with
    | false => rfl
    | true =>
        rw [eq_of_beq hb] at hcontent
        exact absurd hcontent (by decide)
  have hcond : (it.content == "" || stripIsEmpty it.content) = false := by
    rw [hc0, hcontent]
    rfl
  simp [processItem, hcond, herr]

/-- When the scoring capability succeeds on valid content, _process_item
returns a successful BatchResult with the analysis payload. -/
theorem processItem_ok (analyze : String → List String → Except String α)
    (it : BatchItem) (ems : ℚ) (d : α)
    (hcontent : stripIsEmpty it.content = false)
    (hok : analyze it.content (frameworksOrDefault it) = Except.ok d) :
    processItem analyze it ems =
      { item_id := it.id, success := true, data := some d,
        processing_time_ms := ems,
        framework_count := (frameworksOrDefault it).length } := by
  have hc0 : (it.content == "") = false := by
    cases hb : (it.content == "") with
    | false => rfl
    | true =>
        rw [eq_of_beq hb] at hcontent
        exact absurd hcontent (by decide)
  have hcond : (it.content == "" || stripIsEmpty it.content) = false := by
    rw [hc0, hcontent]
    rfl
  simp [processItem, hcond, hok]

/-- Claim C4: when the scoring capability raises on one item of a batch
within the size cap, that item is recorded as a failed BatchResult whose
error is the exception message, the exception is not re-raised (process_batch
still returns Except.ok), the top-level success flag stays true, and every
other item with valid content on which the capability succeeds is recorded
as a successful BatchResult. -/
theorem batch_partial_failure (max_batch_size : Nat)
    (analyze : String → List String → Except String α) (tfn : BatchItem → ℚ)
    (items : List BatchItem) (elapsed_seconds : ℚ) (it : BatchItem)
    (msg : String)
    (hsize : items.length ≤ max_batch_size) (hmem : it ∈ items)
    (hcontent : stripIsEmpty it.content = false)
    (herr : analyze it.content (frameworksOrDefault it) = Except.error msg) :
    ∃ ret : ProcessBatchReturn α,
      process_batch max_batch_size analyze tfn items elapsed_seconds
        = Except.ok ret ∧
      ret.success = true ∧
      (∃ r ∈ ret.results,
        r.item_id = it.id ∧ r.success = false ∧ r.error = some msg) ∧
      (∀ jt ∈ items, stripIsEmpty jt.content = false →
        ∀ d, analyze jt.content (frameworksOrDefault jt) = Except.ok d →
          ∃ r ∈ ret.results,
            r.item_id = jt.id ∧ r.success = true ∧ r.error = none) := by
  have hne : items ≠ [] := by
    rintro rfl
    simp at hmem
  unfold process_batch
  rw [if_neg (by omega), if_neg hne]
  refine ⟨_, rfl, rfl, ?_, ?_⟩
  · exact ⟨processItem analyze it (tfn it),
      processParallel_mem analyze tfn _ it (List.mem_mergeSort.mpr hmem),
      by rw [processItem_error analyze it (tfn it) msg hcontent herr],
      by rw [processItem_error analyze it (tfn it) msg hcontent herr],
      by rw [processItem_error analyze it (tfn it) msg hcontent herr]⟩
  · intro jt hjt hjc d hok
    exact ⟨processItem analyze jt (tfn jt),
      processParallel_mem analyze tfn _ jt (List.mem_mergeSort.mpr hjt),
      by rw [processItem_ok analyze jt (tfn jt) d hjc hok],
      by rw [processItem_ok analyze jt (tfn jt) d hjc hok],
      by rw [processItem_ok analyze jt (tfn jt) d hjc hok]⟩

/-- A concrete scoring capability raising exactly on the content "bad". -/
def exAnalyze : String → List String → Except String Nat :=
  fun content _ =>
    if content == "bad" then Except.error "boom" else Except.ok 7

/-- The concrete item of the three-item witness batch whose scoring raises. -/
def exBad : BatchItem := { id := "i2", content := "bad", frameworks := none }

/-- A concrete three-item batch in which the second item's scoring raises. -/
def exItems : List BatchItem :=
  [{ id := "i1", content := "hello", frameworks := none }, exBad,
   { id := "i3", content := "world", frameworks := none }]

/-- Witness for claim C4 on the concrete three-item batch: the middle item's
capability raises and is isolated. -/
theorem batch_partial_failure_witness :
    exItems.length ≤ 10 ∧ exBad ∈ exItems ∧
    stripIsEmpty exBad.content = false ∧
    exAnalyze exBad.content (frameworksOrDefault exBad)
        = Except.error "boom" ∧
    (∃ ret : ProcessBatchReturn Nat,
      process_batch 10 exAnalyze (fun _ => 1) exItems 2 = Except.ok ret ∧
      ret.success = true ∧
      (∃ r ∈ ret.results,
        r.item_id = exBad.id ∧ r.success = false ∧ r.error = some "boom") ∧
      (∀ jt ∈ exItems, stripIsEmpty jt.content = false →
        ∀ d, exAnalyze jt.content (frameworksOrDefault jt) = Except.ok d →
          ∃ r ∈ ret.results,
            r.item_id = jt.id ∧ r.success = true ∧ r.error = none)) :=
  ⟨by decide, by decide, by decide, by rfl,
   batch_partial_failure 10 exAnalyze (fun _ => 1) exItems 2 exBad "boom"
     (by decide) (by decide) (by decide) (by rfl)⟩

/-- Claim C5, counterexample: the empty-items call returns a dictionary with
no progress key (the early return of the source includes only success,
results and summary), refuting that every process_batch return contains the
progress key. -/
theorem process_batch_empty_lacks_progress :
    (process_batch 10 (fun _ _ => (Except.ok 0 : Except String Nat))
        (fun _ => 0) [] 0).map (fun r => r.progress) = Except.ok none := rfl

/-- Claim C5 (amended): every call within the batch-size cap returns
success = true with the results and summary keys; the progress key is
present exactly when items is nonempty — the empty-items call returns an
immediate vacuous success with empty results and a zero-valued summary but
without the progress key. -/
theorem process_batch_return_shape (max_batch_size : Nat)
    (analyze : String → List String → Except String α) (tfn : BatchItem → ℚ)
    (items : List BatchItem) (elapsed_seconds : ℚ)
    (hsize : items.length ≤ max_batch_size) :
    ∃ ret : ProcessBatchReturn α,
      process_batch max_batch_size analyze tfn items elapsed_seconds
        = Except.ok ret ∧
      ret.success = true ∧ ret.error = none ∧
      (items = [] → ret.results = [] ∧ ret.progress = none ∧
        ret.summary.total_items = 0 ∧ ret.summary.successful_items = 0 ∧
        ret.summary.failed_items = 0 ∧ ret.summary.success_rate = 0 ∧
        ret.summary.total_processing_time_seconds = 0 ∧
        ret.summary.average_processing_time_ms = 0 ∧
        ret.summary.total_frameworks_processed = 0) ∧
      (items ≠ [] → ret.progress.isSome = true) := by
  unfold process_batch
  rw [if_neg (by omega)]
  by_cases hE : items = []
  · subst hE
    rw [if_pos rfl]
    exact ⟨_, rfl, rfl, rfl,
      fun _ => ⟨rfl, rfl, rfl, rfl, rfl, rfl, rfl, rfl, rfl⟩,
      fun h => absurd rfl h⟩
  · rw [if_neg hE]
    exact ⟨_, rfl, rfl, rfl, fun h => absurd h hE, fun _ => rfl⟩

/-- Witness for the amended claim C5 at the concrete empty batch. -/
theorem process_batch_return_shape_witness :
    ([] : List BatchItem).length ≤ 5 ∧
    (∃ ret : ProcessBatchReturn Nat,
      process_batch 5 (fun _ _ => (Except.ok 0 : Except String Nat))
          (fun _ => 0) [] 0 = Except.ok ret ∧
      ret.success = true ∧ ret.error = none ∧
      (([] : List BatchItem) = [] → ret.results = [] ∧ ret.progress = none ∧
        ret.summary.total_items = 0 ∧ ret.summary.successful_items = 0 ∧
        ret.summary.failed_items = 0 ∧ ret.summary.success_rate = 0 ∧
        ret.summary.total_processing_time_seconds = 0 ∧
        ret.summary.average_processing_time_ms = 0 ∧
        ret.summary.total_frameworks_processed = 0) ∧
      (([] : List BatchItem) ≠ [] → ret.progress.isSome = true)) :=
  ⟨by decide,
   process_batch_return_shape 5 (fun _ _ => (Except.ok 0 : Except String Nat))
     (fun _ => 0) [] 0 (by decide)⟩

end OSP
